import Mathlib

/-!
# Verification of the aiplatform SDK spec against its source

Shallow embedding of three source files:
- `google/cloud/aiplatform/helpers/container_uri_builders.py`
  (`get_prebuilt_prediction_container_uri`)
- `google/cloud/aiplatform/datasets/dataset.py` (`Dataset` resource controller)
- `google/cloud/aiplatform/experimental/vertex_model/serializers/pandas.py`
  (`_serialize_dataframe`)

Python dictionaries are embedded as association lists, Python truthiness of
strings/dicts as emptiness tests, raised exceptions as `Except` errors, and
remote calls as events recorded on an explicit trace.
-/

namespace AiPlatform

/-! ## String helpers mirroring the Python string operations used -/

/-- Embeds Python `s.split("-", 1)[0]`: the prefix of `s` before the first
`'-'` (the whole of `s` when it has no `'-'`). -/
def firstSeg (s : String) : String :=
  ⟨s.data.takeWhile (fun c => c ≠ '-')⟩

/-- Embeds Python `str.lower()` on one ASCII character: shifts `A`–`Z`
(codepoints 65–90) down by 32, leaves everything else unchanged. -/
def pyLowerChar (c : Char) : Char :=
  if h : 65 ≤ c.toNat ∧ c.toNat ≤ 90 then
    Char.ofNatAux (c.toNat + 32) (Or.inl (by omega))
  else c

/-- Embeds Python `str.lower()` (ASCII model): lowercases every character. -/
def pyLower (s : String) : String :=
  ⟨s.data.map pyLowerChar⟩

/-! ## Container URI resolver
(`helpers/container_uri_builders.py`, `get_prebuilt_prediction_container_uri`)

The nested lookup table `prediction._SERVING_CONTAINER_URI_MAP` lives in a
constants module outside the given sources, so the resolver is parameterized
over the table (`RegionMap`) and over the ambient default location
(`initializer.global_config.location`). Python dict levels become association
lists; `dict.get` followed by a truthiness test (`if not ...`) becomes
`truthyGet`, which treats an absent key and a falsy (empty) value alike. -/

/-- `version → URI` leaf level of the lookup table. -/
abbrev VersionMap := List (String × String)

/-- `accelerator → version map` level. -/
abbrev AccelMap := List (String × VersionMap)

/-- `framework → accelerator map` level. -/
abbrev FrameworkMap := List (String × AccelMap)

/-- `region → framework map`: the whole `_SERVING_CONTAINER_URI_MAP`. -/
abbrev RegionMap := List (String × FrameworkMap)

/-- The keys of one dict level, as enumerated in the error messages by
`', '.join(map.keys())`. -/
def dictKeys {β : Type} (m : List (String × β)) : List String :=
  m.map Prod.fst

/-- Python `m.get(k)` combined with the `if not ...` truthiness test applied
to the result: an absent key and an empty (falsy) dict value both yield
`none`. -/
def truthyGet {γ : Type} (m : List (String × List γ)) (k : String) :
    Option (List γ) :=
  match m.lookup k with
  | some v => if v.isEmpty then none else some v
  | none => none

/-- The `ValueError`s raised by the resolver, one constructor per lookup
level, each carrying the valid alternatives its message enumerates. -/
inductive ContainerError where
  | unsupportedRegion (region : String) (supported : List String)
  | unsupportedFramework (framework : String) (supported : List String)
  | unsupportedAccelerator (framework accelerator : String)
      (supported : List String)
  | unsupportedVersion (framework version accelerator : String)
      (supported : List String)
deriving DecidableEq, Repr

/-- Embeds `get_prebuilt_prediction_container_uri(framework,
framework_version, region, accelerator)`. `URI_MAP` is the serving-container
table and `init_location` the ambient `initializer.global_config.location`;
`region = region or init_location`, then `region = region.split("-", 1)[0]`
and `framework = framework.lower()`, then the four-level walk with a
fail-fast `ValueError` at the first absent-or-falsy key. -/
def get_prebuilt_prediction_container_uri (URI_MAP : RegionMap)
    (init_location : String) (framework framework_version : String)
    (region : Option String) (accelerator : String) :
    Except ContainerError String :=
  let region₀ : String :=
    match region with
    | none => init_location
    | some r => if r = "" then init_location else r
  let region₁ : String := firstSeg region₀
  let framework₁ : String := pyLower framework
  match truthyGet URI_MAP region₁ with
  | none => .error (.unsupportedRegion region₁ (dictKeys URI_MAP))
  | some fwMap =>
    match truthyGet fwMap framework₁ with
    | none => .error (.unsupportedFramework framework₁ (dictKeys fwMap))
    | some accMap =>
      match truthyGet accMap accelerator with
      | none =>
          .error (.unsupportedAccelerator framework₁ accelerator
            (dictKeys accMap))
      | some verMap =>
        match verMap.lookup framework_version with
        | none =>
            .error (.unsupportedVersion framework₁ framework_version
              accelerator (dictKeys verMap))
        | some uri =>
            if uri = "" then
              .error (.unsupportedVersion framework₁ framework_version
                accelerator (dictKeys verMap))
            else .ok uri

/-- A small concrete serving-container table used to instantiate the
parameterized resolver in witnesses and counterexamples. -/
def demoMap : RegionMap :=
  [("us", [("tensorflow",
      [("cpu", [("2.6", "us-docker.pkg.dev/vertex-ai/prediction/tf2-cpu.2-6:latest")])])])]

/-! ## Dataset resource controller (`datasets/dataset.py`)

Remote calls are modelled as `RemoteEvent`s recorded on an explicit trace;
the Remote API Gateway is a parameter (`RemoteApi`) supplying the results of
the remote operations. The `_datasources` module, `base.optional_sync`,
`base` accessors (`wait`) and `utils.validate_display_name` are not among the
given sources, so those pieces are modelled from the spec (marked in their
doc comments); the bodies of `Dataset.create`, `Dataset._create_and_import`,
`Dataset.__init__`, `Dataset._validate_metadata_schema_uri` and
`Dataset.export_data` are embedded from the source. -/

/-- One remote interaction of the controller with the Remote API Gateway.
`...Issued` marks a request being sent, `...Completed` the corresponding
long-running operation's `result()` returning. -/
inductive RemoteEvent where
  | createIssued (parent displayName metadataSchemaUri : String)
  | createCompleted (name : String)
  | getDataset (name : String)
  | importIssued (name : String)
  | importCompleted (name : String)
  | exportIssued (name outputUriPrefix : String)
  | exportCompleted (name : String)
  | waitResolved
deriving DecidableEq, Repr

/-- The fetched remote dataset proto (`_gca_resource`): the fields the
embedded code reads. -/
structure GcaDataset where
  name : String
  metadata_schema_uri : String
deriving DecidableEq, Repr

/-- The Remote API Gateway, abstracted as the results its long-running
operations eventually yield. -/
structure RemoteApi where
  /-- `create_dataset(...)` followed by `lro.result()`: the resource name of
  the dataset the service created for the given parent/display name/schema. -/
  createDatasetName : String → String → String → String
  /-- `get_dataset` by resource name (used by `_get_gca_resource`). -/
  fetch : String → GcaDataset
  /-- `export_data(...).result().exported_files`. -/
  exportedFiles : String → String → List String

/-- Modelled from the spec: the Datasource Descriptor built by the
`_datasources` module (not among the given sources) — a tagged union over the
storage origin {none, Cloud-Storage file list, BigQuery table}, importable
variants carrying an import-schema URI and optional per-item labels. -/
inductive Datasource where
  | noSource
  | gcs (uris : List String) (importSchemaUri : Option String)
      (labels : List (String × String))
  | bq (uri : String) (importSchemaUri : Option String)
      (labels : List (String × String))
deriving DecidableEq, Repr

/-- Modelled from the spec: a descriptor is import-capable (a
`DatasourceImportable`) exactly when it carries an import configuration,
i.e. an import-schema URI. -/
def Datasource.isImportable : Datasource → Bool
  | .gcs _ (some _) _ => true
  | .bq _ (some _) _ => true
  | _ => false

/-- The invalid-argument conditions of datasource construction. -/
inductive DatasourceError where
  | contradictorySource
  | missingRequiredUri
deriving DecidableEq, Repr

/-- Modelled from the spec: `_datasources.create_datasource` (module not
among the given sources) — "fails with an invalid-argument condition if
source fields are contradictory or a required URI is missing"; exactly one
storage origin may be set. -/
def create_datasource (import_schema_uri : Option String)
    (gcs_source : Option (List String)) (bq_source : Option String)
    (data_item_labels : List (String × String)) :
    Except DatasourceError Datasource :=
  match gcs_source, bq_source with
  | some _, some _ => .error .contradictorySource
  | some us, none =>
      if us.isEmpty || us.contains "" then .error .missingRequiredUri
      else .ok (.gcs us import_schema_uri data_item_labels)
  | none, some b =>
      if b = "" then .error .missingRequiredUri
      else .ok (.bq b import_schema_uri data_item_labels)
  | none, none =>
      match import_schema_uri with
      | some _ => .error .missingRequiredUri
      | none => .ok .noSource

/-- The local resource handle: identity and cached remote metadata. -/
structure DatasetHandle where
  resourceName : String
  metadataSchemaUri : String
deriving DecidableEq, Repr

/-- The type-mismatch condition of `_validate_metadata_schema_uri`. -/
inductive InitError where
  | typeMismatch
deriving DecidableEq, Repr

/-- Embeds `Dataset.__init__` plus `_validate_metadata_schema_uri`:
fetch the remote resource, then fail with the type-mismatch `ValueError`
exactly when the class's `_supported_metadata_schema_uris` is truthy
(non-empty; `[]` models both `None` and an empty tuple) and the fetched
`metadata_schema_uri` is not a member. -/
def Dataset.init (supported : List String) (api : RemoteApi)
    (dataset_name : String) : Except InitError DatasetHandle :=
  let res := api.fetch dataset_name
  if supported ≠ [] ∧ res.metadata_schema_uri ∉ supported
  then .error .typeMismatch
  else .ok ⟨res.name, res.metadata_schema_uri⟩

/-- Embeds the body of `Dataset._create_and_import` run synchronously: issue
`_create` and await its LRO, construct the handle from the created resource's
name (a `get_dataset`), then — exactly if the datasource is a
`DatasourceImportable` — issue `_import` against it and await that LRO.
Returns the outcome together with the trace of remote events, in order. -/
def Dataset.createAndImport (api : RemoteApi) (supported : List String)
    (parent display_name metadata_schema_uri : String)
    (datasource : Datasource) :
    Except InitError DatasetHandle × List RemoteEvent :=
  let createdName := api.createDatasetName parent display_name
    metadata_schema_uri
  let evs₀ : List RemoteEvent :=
    [.createIssued parent display_name metadata_schema_uri,
     .createCompleted createdName, .getDataset createdName]
  match Dataset.init supported api createdName with
  | .error e => (.error e, evs₀)
  | .ok h =>
    if datasource.isImportable then
      (.ok h, evs₀ ++ [.importIssued h.resourceName,
                       .importCompleted h.resourceName])
    else (.ok h, evs₀)

/-- Modelled from the spec: `utils.validate_display_name` (module not among
the given sources) — the display name must be non-empty and at most 128
characters. -/
def validate_display_name (display_name : String) : Bool :=
  display_name ≠ "" && display_name.length ≤ 128

/-- The failure conditions of `Dataset.create`, keeping which validation
raised. -/
inductive CreateError where
  | invalidDisplayName
  | datasource (e : DatasourceError)
  | init (e : InitError)
deriving DecidableEq, Repr

/-- Everything a `Dataset.create` call produces: its outcome and — modelling
`base.optional_sync`, which is not among the given sources — the remote
events completed before the call returned versus those deferred to the
background worker. -/
structure CreateOutcome where
  result : Except CreateError DatasetHandle
  completedBeforeReturn : List RemoteEvent
  deferred : List RemoteEvent

/-- Embeds `Dataset.create`: validate the display name, build the datasource
descriptor (propagating its invalid-argument failure before any remote
call), then run `_create_and_import` through `optional_sync` — synchronously
(events complete before return) when `sync` is true, deferred otherwise. The
base `Dataset` class has `_supported_metadata_schema_uris = None`, embedded
as `[]`. -/
def Dataset.create (api : RemoteApi)
    (display_name metadata_schema_uri : String)
    (gcs_source : Option (List String)) (bq_source : Option String)
    (import_schema_uri : Option String)
    (data_item_labels : List (String × String))
    (parent : String) (sync : Bool) : CreateOutcome :=
  if validate_display_name display_name = false then
    ⟨.error .invalidDisplayName, [], []⟩
  else
    match create_datasource import_schema_uri gcs_source bq_source
        data_item_labels with
    | .error e => ⟨.error (.datasource e), [], []⟩
    | .ok ds =>
      let r := Dataset.createAndImport api [] parent display_name
        metadata_schema_uri ds
      if sync then ⟨r.1.mapError CreateError.init, r.2, []⟩
      else ⟨r.1.mapError CreateError.init, [], r.2⟩

/-- Embeds `Dataset.export_data(output_dir)`: `self.wait()` (modelled from
the spec: the base-class accessor blocking on a pending background
operation, not among the given sources), then build an `ExportDataConfig`
whose `gcs_destination.output_uri_prefix` is `output_dir` exactly as
supplied, issue `export_data`, await the LRO and return its
`exported_files`. -/
def Dataset.export_data (api : RemoteApi) (self : DatasetHandle)
    (output_dir : String) : List RemoteEvent × List String :=
  ([.waitResolved,
    .exportIssued self.resourceName output_dir,
    .exportCompleted self.resourceName],
   api.exportedFiles self.resourceName output_dir)

/-- Whether a string is a Cloud Storage URI (has the `gs://` scheme) — the
"storage URI" notion of the spec's export contract. -/
def isStorageUri (s : String) : Bool :=
  "gs://".data.isPrefixOf s.data

/-- Whether a string already ends with the `'/'` separator — the
normalization the spec's export contract describes. -/
def endsWithSlash (s : String) : Bool :=
  s.data.getLast? = some '/'

/-- A concrete Remote API Gateway used to instantiate witnesses and
counterexamples. -/
def demoApi : RemoteApi where
  createDatasetName := fun _ _ _ => "projects/p/locations/us-central1/datasets/1"
  fetch := fun n => ⟨n, "gs://google-cloud-aiplatform/schema/dataset/metadata/image_1.0.0.yaml"⟩
  exportedFiles := fun _ _ => []

/-! ## Tabular serializer
(`experimental/vertex_model/serializers/pandas.py`, `_serialize_dataframe`)

Python resolves a function body's global names at execution time against the
module's namespace; a statement mentioning a name the module never bound
raises `NameError` there, aborting the call. We embed the body of
`_serialize_dataframe` as the sequence of its statements, each carrying the
module-level names it references and the externally visible effect it would
perform, and run it against the set of names the module's import statements
actually bind. -/

/-- The externally visible effects of `_serialize_dataframe`'s statements. -/
inductive PyEff where
  | tempDirEnter
  | writeCsv
  | tempDirExit
  | upload
deriving DecidableEq, Repr

/-- One Python statement: the module-level (global) names it references and
the effects it performs when executed. -/
structure PyStmt where
  globals : List String
  effects : List PyEff
deriving DecidableEq, Repr

/-- The module-level names bound in
`experimental/vertex_model/serializers/pandas.py`, transcribed from the
statements importing them (`pathlib` and `storage` are not among them). -/
def pandasModuleNames : List String :=
  ["functools", "inspect", "logging", "tempfile", "io", "sys",
   "Any", "Dict", "List", "Sequence", "Tuple", "Type",
   "operation", "auth_credentials", "initializer", "utils",
   "gca_encryption_spec", "aiplatform", "pd"]

/-- The body of `_serialize_dataframe`, statement by statement. The
`with tempfile.TemporaryDirectory()` block contributes its enter and exit
(directory deletion) as effects; the `blob.upload_from_filename(path_to_csv)`
statement is the upload of the CSV path created inside that block. -/
def serializeDataframeBody : List PyStmt :=
  [⟨["tempfile"], [.tempDirEnter]⟩,
   -- temp_dir = pathlib.Path(tmpdirname) / ("my_" + dataset_type + "_dataset.csv")
   ⟨["pathlib"], []⟩,
   -- path_to_csv = pathlib.Path(temp_dir)
   ⟨["pathlib"], []⟩,
   -- obj.to_csv(path_to_csv)
   ⟨[], [.writeCsv]⟩,
   -- end of the with-block: the temporary directory is deleted
   ⟨[], [.tempDirExit]⟩,
   -- gcs_bucket, gcs_blob_prefix = extract_bucket_and_prefix_from_gcs_path(artifact_uri)
   ⟨["extract_bucket_and_prefix_from_gcs_path"], []⟩,
   -- local_file_name = path_to_csv.name
   ⟨[], []⟩,
   -- blob_path = local_file_name
   ⟨[], []⟩,
   -- if gcs_blob_prefix: blob_path = "/".join([gcs_blob_prefix, blob_path])
   ⟨[], []⟩,
   -- client = storage.Client(project=..., credentials=...)
   ⟨["storage", "initializer"], []⟩,
   -- bucket = client.bucket(gcs_bucket)
   ⟨[], []⟩,
   -- blob = bucket.blob(blob_path)
   ⟨[], []⟩,
   -- blob.upload_from_filename(path_to_csv)
   ⟨[], [.upload]⟩,
   -- gcs_path = "".join(["gs://", "/".join([blob.bucket.name, blob.name])]); return gcs_path
   ⟨[], []⟩]

/-- Runs a statement list against the module's bound names: statements
execute in order, and the first statement referencing an unbound global
raises `NameError` for that name, aborting the rest. Returns the effects
performed before the abort and the unresolved name, if any. -/
def runPy (env : List String) : List PyStmt → List PyEff × Option String
  | [] => ([], none)
  | s :: rest =>
    match s.globals.find? (fun n => !env.contains n) with
    | some n => ([], some n)
    | none =>
      let r := runPy env rest
      (s.effects ++ r.1, r.2)

end AiPlatform

deriving instance DecidableEq for Except

namespace AiPlatform

/-! ## Theorems: string-helper lemmas -/

theorem firstSeg_idem (s : String) : firstSeg (firstSeg s) = firstSeg s :=
  congrArg String.mk (List.takeWhile_idem)

theorem toNat_pyLowerChar_of_upper {c : Char}
    (h : 65 ≤ c.toNat ∧ c.toNat ≤ 90) :
    (pyLowerChar c).toNat = c.toNat + 32 := by
  unfold pyLowerChar
  rw [dif_pos h]
  rfl

theorem pyLowerChar_of_not_upper {c : Char}
    (h : ¬(65 ≤ c.toNat ∧ c.toNat ≤ 90)) : pyLowerChar c = c := by
  unfold pyLowerChar
  exact dif_neg h

theorem pyLowerChar_idem (c : Char) :
    pyLowerChar (pyLowerChar c) = pyLowerChar c := by
  by_cases h : 65 ≤ c.toNat ∧ c.toNat ≤ 90
  · apply pyLowerChar_of_not_upper
    rw [toNat_pyLowerChar_of_upper h]
    omega
  · rw [pyLowerChar_of_not_upper h]
    exact pyLowerChar_of_not_upper h

theorem map_pyLowerChar_idem (l : List Char) :
    (l.map pyLowerChar).map pyLowerChar = l.map pyLowerChar := by
  induction l with
  | nil => rfl
  | cons a t ih => simp only [List.map_cons, pyLowerChar_idem, ih]

theorem pyLower_idem (s : String) : pyLower (pyLower s) = pyLower s :=
  congrArg String.mk (map_pyLowerChar_idem s.data)

theorem isEmpty_false_of_lookup {α β : Type} [BEq α] {l : List (α × β)}
    {k : α} {v : β} (h : l.lookup k = some v) : l.isEmpty = false := by
  cases l with
  | nil => simp [List.lookup] at h
  | cons a t => rfl

theorem truthyGet_of_lookup {γ : Type} {m : List (String × List γ)}
    {k : String} {v : List γ} (h : m.lookup k = some v)
    (hv : v.isEmpty = false) : truthyGet m k = some v := by
  unfold truthyGet
  rw [h]
  simp [hv]

theorem truthyGet_of_lookup_none {γ : Type} {m : List (String × List γ)}
    {k : String} (h : m.lookup k = none) : truthyGet m k = none := by
  unfold truthyGet
  rw [h]

/-! ## Theorems: claims about the container URI resolver -/

/-- C3: for every quadruple (region, framework, accelerator, version) present
in the lookup table with a non-empty URI leaf — the table's keys being, as in
the shipped table, regions without sub-region suffixes and lowercase
frameworks — `get_prebuilt_prediction_container_uri` returns exactly the
stored URI and raises no error. -/
theorem resolver_returns_stored_uri (URI_MAP : RegionMap)
    (init_location region framework accelerator version uri : String)
    (fwMap : FrameworkMap) (accMap : AccelMap) (verMap : VersionMap)
    (h₁ : URI_MAP.lookup region = some fwMap)
    (h₂ : fwMap.lookup framework = some accMap)
    (h₃ : accMap.lookup accelerator = some verMap)
    (h₄ : verMap.lookup version = some uri)
    (h₅ : uri ≠ "")
    (hr₀ : region ≠ "")
    (hr₁ : firstSeg region = region)
    (hf : pyLower framework = framework) :
    get_prebuilt_prediction_container_uri URI_MAP init_location framework
      version (some region) accelerator = .ok uri := by
  unfold get_prebuilt_prediction_container_uri
  dsimp only
  simp only [if_neg hr₀, hr₁, hf,
    truthyGet_of_lookup h₁ (isEmpty_false_of_lookup h₂),
    truthyGet_of_lookup h₂ (isEmpty_false_of_lookup h₃),
    truthyGet_of_lookup h₃ (isEmpty_false_of_lookup h₄), h₄, if_neg h₅]

theorem resolver_returns_stored_uri_witness :
    demoMap.lookup "us" =
        some [("tensorflow", [("cpu",
          [("2.6", "us-docker.pkg.dev/vertex-ai/prediction/tf2-cpu.2-6:latest")])])] ∧
    get_prebuilt_prediction_container_uri demoMap "us-central1" "tensorflow"
        "2.6" (some "us") "cpu" =
      .ok "us-docker.pkg.dev/vertex-ai/prediction/tf2-cpu.2-6:latest" :=
  ⟨rfl,
    resolver_returns_stored_uri demoMap "us-central1" "us" "tensorflow" "cpu"
      "2.6" "us-docker.pkg.dev/vertex-ai/prediction/tf2-cpu.2-6:latest"
      [("tensorflow", [("cpu",
        [("2.6", "us-docker.pkg.dev/vertex-ai/prediction/tf2-cpu.2-6:latest")])])]
      [("cpu", [("2.6", "us-docker.pkg.dev/vertex-ai/prediction/tf2-cpu.2-6:latest")])]
      [("2.6", "us-docker.pkg.dev/vertex-ai/prediction/tf2-cpu.2-6:latest")]
      rfl rfl rfl rfl (by decide) (by decide) (by decide) (by decide)⟩

/-- C6 (amended): for a non-empty region string whose first hyphen-delimited
segment is itself non-empty, resolving behaves identically to resolving with
the first segment of the region and the lowercased framework. (For a region
whose first segment is empty, e.g. `"-east1"`, the two calls differ: the
empty string is falsy, so passing it makes the resolver fall back to the
ambient default location.) -/
theorem resolver_normalization_invariance (URI_MAP : RegionMap)
    (init_location framework version r accelerator : String)
    (h₀ : r ≠ "") (h₁ : firstSeg r ≠ "") :
    get_prebuilt_prediction_container_uri URI_MAP init_location framework
        version (some r) accelerator =
      get_prebuilt_prediction_container_uri URI_MAP init_location
        (pyLower framework) version (some (firstSeg r)) accelerator := by
  unfold get_prebuilt_prediction_container_uri
  dsimp only
  rw [if_neg h₀, if_neg h₁, firstSeg_idem, pyLower_idem]

theorem resolver_normalization_invariance_witness :
    ("us-east1" : String) ≠ "" ∧ firstSeg "us-east1" ≠ "" ∧
    get_prebuilt_prediction_container_uri demoMap "europe-west4" "TensorFlow"
        "2.6" (some "us-east1") "cpu" =
      get_prebuilt_prediction_container_uri demoMap "europe-west4"
        (pyLower "TensorFlow") "2.6" (some (firstSeg "us-east1")) "cpu" :=
  ⟨by decide, by decide,
    resolver_normalization_invariance demoMap "europe-west4" "TensorFlow"
      "2.6" "us-east1" "cpu" (by decide) (by decide)⟩

/-- C6 (counterexample): `"-east1"` is a non-empty region string, yet
resolving with it is not identical to resolving with its first
hyphen-delimited segment `""`: the former fails with an unsupported-region
error while the latter falls back to the ambient default location and
succeeds. -/
theorem resolver_normalization_counterexample :
    ("-east1" : String) ≠ "" ∧
    firstSeg "-east1" = "" ∧
    get_prebuilt_prediction_container_uri demoMap "us-central1" "tensorflow"
        "2.6" (some "-east1") "cpu" =
      .error (.unsupportedRegion "" ["us"]) ∧
    get_prebuilt_prediction_container_uri demoMap "us-central1" "tensorflow"
        "2.6" (some (firstSeg "-east1")) "cpu" =
      .ok "us-docker.pkg.dev/vertex-ai/prediction/tf2-cpu.2-6:latest" ∧
    get_prebuilt_prediction_container_uri demoMap "us-central1" "tensorflow"
        "2.6" (some "-east1") "cpu" ≠
      get_prebuilt_prediction_container_uri demoMap "us-central1" "tensorflow"
        "2.6" (some (firstSeg "-east1")) "cpu" := by
  decide

/-- C7: when the (normalized) region is present in the table with a truthy
framework map but the (normalized) framework is absent under it, the resolver
fails with the framework-level `ValueError` enumerating exactly the framework
keys of that region, whatever accelerator and version were passed — the later
levels are never consulted. -/
theorem resolver_absent_framework_error (URI_MAP : RegionMap)
    (init_location region framework accelerator version : String)
    (fwMap : FrameworkMap)
    (h₁ : URI_MAP.lookup region = some fwMap)
    (hne : fwMap.isEmpty = false)
    (h₂ : fwMap.lookup (pyLower framework) = none)
    (hr₀ : region ≠ "")
    (hr₁ : firstSeg region = region) :
    get_prebuilt_prediction_container_uri URI_MAP init_location framework
        version (some region) accelerator =
      .error (.unsupportedFramework (pyLower framework) (dictKeys fwMap)) := by
  unfold get_prebuilt_prediction_container_uri
  dsimp only
  simp only [if_neg hr₀, hr₁, truthyGet_of_lookup h₁ hne,
    truthyGet_of_lookup_none h₂]

theorem resolver_absent_framework_error_witness :
    demoMap.lookup "us" =
        some [("tensorflow", [("cpu",
          [("2.6", "us-docker.pkg.dev/vertex-ai/prediction/tf2-cpu.2-6:latest")])])] ∧
    get_prebuilt_prediction_container_uri demoMap "us-central1" "PyTorch"
        "1.0" (some "us") "gpu" =
      .error (.unsupportedFramework "pytorch" ["tensorflow"]) := by
  refine ⟨rfl, ?_⟩
  have h := resolver_absent_framework_error demoMap "us-central1" "us"
    "PyTorch" "gpu" "1.0"
    [("tensorflow", [("cpu",
      [("2.6", "us-docker.pkg.dev/vertex-ai/prediction/tf2-cpu.2-6:latest")])])]
    rfl rfl (by decide) (by decide) (by decide)
  exact h.trans (by decide)

/-- C10: on every input the resolver either fails with a `ValueError` or
returns a non-empty URI string; a falsy (empty-string) leaf is caught by the
final truthiness test and turned into the version-level error, so an empty
URI is never returned. -/
theorem resolver_never_returns_empty_uri (URI_MAP : RegionMap)
    (init_location framework version accelerator : String)
    (region : Option String) :
    (∃ e, get_prebuilt_prediction_container_uri URI_MAP init_location
        framework version region accelerator = .error e) ∨
    (∃ s, get_prebuilt_prediction_container_uri URI_MAP init_location
        framework version region accelerator = .ok s ∧ s ≠ "") := by
  unfold get_prebuilt_prediction_container_uri
  dsimp only
  repeat' split
  all_goals first
    | exact .inl ⟨_, rfl⟩
    | exact .inr ⟨_, rfl, by assumption⟩

/-! ## Theorems: claims about the dataset resource controller -/

/-- C5: constructing a handle from an existing remote resource fails with the
type-mismatch condition exactly when the class's declared supported-schema
set is non-empty and the fetched resource's `metadata_schema_uri` is not a
member; with an empty/unset set, or a member schema URI, construction
succeeds. -/
theorem dataset_init_schema_validation (supported : List String)
    (api : RemoteApi) (dataset_name : String) :
    (Dataset.init supported api dataset_name = .error .typeMismatch ↔
      (supported ≠ [] ∧
        (api.fetch dataset_name).metadata_schema_uri ∉ supported)) ∧
    ((∃ h, Dataset.init supported api dataset_name = .ok h) ↔
      (supported = [] ∨
        (api.fetch dataset_name).metadata_schema_uri ∈ supported)) := by
  unfold Dataset.init
  dsimp only
  by_cases hc : supported ≠ [] ∧
      (api.fetch dataset_name).metadata_schema_uri ∉ supported
  · rw [if_pos hc]
    constructor
    · exact ⟨fun _ => hc, fun _ => rfl⟩
    · constructor
      · rintro ⟨h, hh⟩
        exact absurd hh (by simp)
      · intro hdisj
        rcases hc with ⟨h1, h2⟩
        rcases hdisj with h3 | h4
        · exact absurd h3 h1
        · exact absurd h4 h2
  · rw [if_neg hc]
    push_neg at hc
    constructor
    · constructor
      · intro h
        exact absurd h (by simp)
      · rintro ⟨h1, h2⟩
        exact absurd (hc h1) h2
    · constructor
      · intro _
        by_cases he : supported = []
        · exact .inl he
        · exact .inr (hc he)
      · exact fun _ => ⟨_, rfl⟩

theorem dataset_init_nil (api : RemoteApi) (dataset_name : String) :
    Dataset.init [] api dataset_name =
      .ok ⟨(api.fetch dataset_name).name,
           (api.fetch dataset_name).metadata_schema_uri⟩ := by
  unfold Dataset.init
  dsimp only
  rw [if_neg]
  rintro ⟨h1, _⟩
  exact h1 rfl

theorem createAndImport_nil (api : RemoteApi)
    (parent display_name metadata_schema_uri : String) (ds : Datasource)
    (hfetch : (api.fetch (api.createDatasetName parent display_name
        metadata_schema_uri)).name
      = api.createDatasetName parent display_name metadata_schema_uri) :
    Dataset.createAndImport api [] parent display_name metadata_schema_uri
        ds =
      (.ok ⟨api.createDatasetName parent display_name metadata_schema_uri,
            (api.fetch (api.createDatasetName parent display_name
              metadata_schema_uri)).metadata_schema_uri⟩,
       [.createIssued parent display_name metadata_schema_uri,
        .createCompleted (api.createDatasetName parent display_name
          metadata_schema_uri),
        .getDataset (api.createDatasetName parent display_name
          metadata_schema_uri)] ++
       (if ds.isImportable then
         [.importIssued (api.createDatasetName parent display_name
            metadata_schema_uri),
          .importCompleted (api.createDatasetName parent display_name
            metadata_schema_uri)]
        else [])) := by
  unfold Dataset.createAndImport
  dsimp only
  rw [dataset_init_nil api]
  dsimp only
  rw [hfetch]
  by_cases him : ds.isImportable = true
  · simp [him]
  · rw [Bool.not_eq_true] at him
    simp [him]

/-- C1: a `Dataset.create` call with `sync = True` completes the create
long-running operation before returning, defers nothing to the background
worker, and — exactly when the built datasource is import-capable — issues a
follow-up import request against the newly created resource and completes
its long-running operation too, all before returning; for a
non-import-capable datasource no import request is ever issued. -/
theorem create_sync_blocks_and_imports_iff_importable (api : RemoteApi)
    (display_name metadata_schema_uri parent : String)
    (gcs_source : Option (List String)) (bq_source : Option String)
    (import_schema_uri : Option String)
    (labels : List (String × String)) (ds : Datasource)
    (hdn : validate_display_name display_name = true)
    (hds : create_datasource import_schema_uri gcs_source bq_source labels
      = .ok ds)
    (hfetch : (api.fetch (api.createDatasetName parent display_name
        metadata_schema_uri)).name
      = api.createDatasetName parent display_name metadata_schema_uri) :
    Dataset.create api display_name metadata_schema_uri gcs_source bq_source
        import_schema_uri labels parent true =
      ⟨.ok ⟨api.createDatasetName parent display_name metadata_schema_uri,
            (api.fetch (api.createDatasetName parent display_name
              metadata_schema_uri)).metadata_schema_uri⟩,
       [.createIssued parent display_name metadata_schema_uri,
        .createCompleted (api.createDatasetName parent display_name
          metadata_schema_uri),
        .getDataset (api.createDatasetName parent display_name
          metadata_schema_uri)] ++
       (if ds.isImportable then
         [.importIssued (api.createDatasetName parent display_name
            metadata_schema_uri),
          .importCompleted (api.createDatasetName parent display_name
            metadata_schema_uri)]
        else []),
       []⟩ ∧
    ((∃ m, RemoteEvent.importIssued m ∈
        (Dataset.create api display_name metadata_schema_uri gcs_source
          bq_source import_schema_uri labels parent
          true).completedBeforeReturn) ↔ ds.isImportable = true) := by
  have hvd : ¬(validate_display_name display_name = false) := by
    rw [hdn]
    decide
  have hmain : Dataset.create api display_name metadata_schema_uri gcs_source
      bq_source import_schema_uri labels parent true =
      ⟨.ok ⟨api.createDatasetName parent display_name metadata_schema_uri,
            (api.fetch (api.createDatasetName parent display_name
              metadata_schema_uri)).metadata_schema_uri⟩,
       [.createIssued parent display_name metadata_schema_uri,
        .createCompleted (api.createDatasetName parent display_name
          metadata_schema_uri),
        .getDataset (api.createDatasetName parent display_name
          metadata_schema_uri)] ++
       (if ds.isImportable then
         [.importIssued (api.createDatasetName parent display_name
            metadata_schema_uri),
          .importCompleted (api.createDatasetName parent display_name
            metadata_schema_uri)]
        else []),
       []⟩ := by
    unfold Dataset.create
    rw [if_neg hvd, hds]
    dsimp only
    rw [createAndImport_nil api parent display_name metadata_schema_uri ds
      hfetch]
    simp [Except.mapError]
  refine ⟨hmain, ?_⟩
  rw [hmain]
  dsimp only
  constructor
  · intro hex
    by_contra hni
    rw [Bool.not_eq_true] at hni
    rcases hex with ⟨m, hm⟩
    rw [hni] at hm
    simp at hm
  · intro him
    refine ⟨api.createDatasetName parent display_name metadata_schema_uri,
      ?_⟩
    rw [him]
    simp

theorem create_sync_blocks_and_imports_iff_importable_witness :
    validate_display_name "my-dataset" = true ∧
    create_datasource (some "gs://schemas/import.yaml")
        (some ["gs://bucket/data.csv"]) none []
      = .ok (.gcs ["gs://bucket/data.csv"] (some "gs://schemas/import.yaml")
          []) ∧
    (Dataset.create demoApi "my-dataset" "gs://schemas/meta.yaml"
        (some ["gs://bucket/data.csv"]) none (some "gs://schemas/import.yaml")
        [] "projects/p/locations/us-central1" true).completedBeforeReturn =
      [.createIssued "projects/p/locations/us-central1" "my-dataset"
         "gs://schemas/meta.yaml",
       .createCompleted "projects/p/locations/us-central1/datasets/1",
       .getDataset "projects/p/locations/us-central1/datasets/1",
       .importIssued "projects/p/locations/us-central1/datasets/1",
       .importCompleted "projects/p/locations/us-central1/datasets/1"] := by
  refine ⟨by decide, rfl, ?_⟩
  have h := create_sync_blocks_and_imports_iff_importable demoApi
    "my-dataset" "gs://schemas/meta.yaml" "projects/p/locations/us-central1"
    (some ["gs://bucket/data.csv"]) none (some "gs://schemas/import.yaml") []
    (.gcs ["gs://bucket/data.csv"] (some "gs://schemas/import.yaml") [])
    (by decide) rfl rfl
  exact congrArg CreateOutcome.completedBeforeReturn h.1

/-- C4: when the supplied source fields are contradictory (both a
Cloud-Storage source and a BigQuery source set) or datasource construction
otherwise fails for a missing required URI, `Dataset.create` (with a valid
display name) fails with the invalid-argument condition raised by datasource
construction and no remote event is ever produced — neither completed nor
deferred, under either sync mode. -/
theorem create_invalid_datasource_no_remote_call (api : RemoteApi)
    (display_name metadata_schema_uri parent : String)
    (gcs_source : Option (List String)) (bq_source : Option String)
    (import_schema_uri : Option String)
    (labels : List (String × String)) (sync : Bool)
    (hdn : validate_display_name display_name = true)
    (hbad : (gcs_source.isSome ∧ bq_source.isSome) ∨
      (∃ e, create_datasource import_schema_uri gcs_source bq_source labels
        = .error e)) :
    ∃ e, Dataset.create api display_name metadata_schema_uri gcs_source
        bq_source import_schema_uri labels parent sync =
      ⟨.error (.datasource e), [], []⟩ := by
  have hvd : ¬(validate_display_name display_name = false) := by
    rw [hdn]
    decide
  have herr : ∃ e, create_datasource import_schema_uri gcs_source bq_source
      labels = .error e := by
    rcases hbad with ⟨hg, hb⟩ | he
    · rcases gcs_source with _ | us
      · exact absurd hg (by simp)
      · rcases bq_source with _ | b
        · exact absurd hb (by simp)
        · exact ⟨.contradictorySource, rfl⟩
    · exact he
  rcases herr with ⟨e, he⟩
  refine ⟨e, ?_⟩
  unfold Dataset.create
  rw [if_neg hvd, he]

theorem create_invalid_datasource_no_remote_call_witness :
    (some ["gs://bucket/data.csv"] : Option (List String)).isSome = true ∧
    (some "bq://project.dataset.table" : Option String).isSome = true ∧
    ∃ e, Dataset.create demoApi "my-dataset" "gs://schemas/meta.yaml"
        (some ["gs://bucket/data.csv"]) (some "bq://project.dataset.table")
        none [] "projects/p/locations/us-central1" true =
      ⟨.error (.datasource e), [], []⟩ :=
  ⟨rfl, rfl,
    create_invalid_datasource_no_remote_call demoApi "my-dataset"
      "gs://schemas/meta.yaml" "projects/p/locations/us-central1"
      (some ["gs://bucket/data.csv"]) (some "bq://project.dataset.table")
      none [] true (by decide) (.inl ⟨rfl, rfl⟩)⟩

/-- C2 (counterexample): `export_data` called with the non-storage, not
`'/'`-terminated output directory `"/tmp/out"` raises no invalid-argument
error: it issues the export request to the remote gateway carrying
`"/tmp/out"` exactly as supplied — neither validated as a storage URI nor
normalized with a trailing separator. -/
theorem export_data_no_validation_counterexample :
    isStorageUri "/tmp/out" = false ∧
    endsWithSlash "/tmp/out" = false ∧
    (Dataset.export_data demoApi
        ⟨"projects/p/locations/us-central1/datasets/1",
         "gs://schemas/meta.yaml"⟩ "/tmp/out").1 =
      [.waitResolved,
       .exportIssued "projects/p/locations/us-central1/datasets/1" "/tmp/out",
       .exportCompleted "projects/p/locations/us-central1/datasets/1"] :=
  ⟨by decide, by decide, rfl⟩

/-- C2 (amended): `export_data` performs no local validation or
normalization of `output_dir`: after waiting on the handle it issues the
export request carrying `output_dir` exactly as supplied (trailing-separator
appending and URI validation are left to the remote service). -/
theorem export_data_carries_output_dir_verbatim (api : RemoteApi)
    (self : DatasetHandle) (output_dir : String) :
    (Dataset.export_data api self output_dir).1 =
      [.waitResolved,
       .exportIssued self.resourceName output_dir,
       .exportCompleted self.resourceName] :=
  rfl

/-- C8: every export request `export_data` issues is preceded on the trace by
the resolution of the handle's pending background operation (`self.wait()`):
the export call is never issued while the handle is still pending. -/
theorem export_data_waits_before_issuing (api : RemoteApi)
    (self : DatasetHandle) (output_dir : String) (k : Nat)
    (name d : String)
    (h : ((Dataset.export_data api self output_dir).1)[k]? =
      some (.exportIssued name d)) :
    ∃ j, j < k ∧ ((Dataset.export_data api self output_dir).1)[j]? =
      some RemoteEvent.waitResolved := by
  match k with
  | 0 => simp [Dataset.export_data] at h
  | 1 => exact ⟨0, by omega, rfl⟩
  | 2 => simp [Dataset.export_data] at h
  | (n + 3) => simp [Dataset.export_data] at h

theorem export_data_waits_before_issuing_witness :
    ((Dataset.export_data demoApi
        ⟨"projects/p/locations/us-central1/datasets/1",
         "gs://schemas/meta.yaml"⟩ "gs://bucket/out/").1)[1]? =
      some (.exportIssued "projects/p/locations/us-central1/datasets/1"
        "gs://bucket/out/") ∧
    ∃ j, j < 1 ∧ ((Dataset.export_data demoApi
        ⟨"projects/p/locations/us-central1/datasets/1",
         "gs://schemas/meta.yaml"⟩ "gs://bucket/out/").1)[j]? =
      some RemoteEvent.waitResolved :=
  ⟨rfl,
    export_data_waits_before_issuing demoApi
      ⟨"projects/p/locations/us-central1/datasets/1",
       "gs://schemas/meta.yaml"⟩ "gs://bucket/out/" 1
      "projects/p/locations/us-central1/datasets/1" "gs://bucket/out/" rfl⟩

/-! ## Theorems: claim about the tabular serializer -/

/-- C9: executing `_serialize_dataframe` aborts with an unresolved-name
(`NameError`) failure on `pathlib` — `pathlib` and `storage` are referenced
by the body but never bound by the module's imports — after only entering
the temporary-directory context and before any upload effect; moreover, in
the statement sequence the CSV write (index 3) sits inside the
temporary-directory block (entered at index 0, exited at index 4) while the
upload of that CSV path (index 12) comes only after the block has exited and
the directory been deleted, so no call can successfully stage a dataframe. -/
theorem serialize_dataframe_never_uploads :
    runPy pandasModuleNames serializeDataframeBody =
      ([PyEff.tempDirEnter], some "pathlib") ∧
    PyEff.upload ∉ (runPy pandasModuleNames serializeDataframeBody).1 ∧
    pandasModuleNames.contains "pathlib" = false ∧
    pandasModuleNames.contains "storage" = false ∧
    (serializeDataframeBody.any fun s => s.globals.contains "pathlib")
      = true ∧
    (serializeDataframeBody.any fun s => s.globals.contains "storage")
      = true ∧
    serializeDataframeBody[0]? = some ⟨["tempfile"], [.tempDirEnter]⟩ ∧
    serializeDataframeBody[3]? = some ⟨[], [.writeCsv]⟩ ∧
    serializeDataframeBody[4]? = some ⟨[], [.tempDirExit]⟩ ∧
    serializeDataframeBody[12]? = some ⟨[], [.upload]⟩ := by
  decide

end AiPlatform
